import Mathlib

/-!
Shallow embedding of the `LidarSpeaksVolumes` repository
(`ConvexHull_pointcloud_demo.py`, `AlphaShape_pointcloud_demo.py`,
`pointcloud_viewer.py`) and proofs about the claims of its specification.

The two demo scripts define textually identical point-cloud generators
(`generate_cylinder_wall`, `generate_bottom`, `generate_fill_surface`); they
are embedded once.  Floating-point scalars are modelled as real numbers for
the analytic/trigonometric layer and as rationals (or a generic decidable
field `K`) for the hull/estimator plumbing layer, so that concrete runs can
be evaluated by the kernel.  Calls into external libraries (numpy's global
pseudo-random generator, `scipy.spatial.ConvexHull`, `alphashape`) are
modelled at the level of their documented contracts; each such model carries
a doc comment saying exactly what is modelled.
-/

/-- A 3D point, one row of a numpy `column_stack((x, y, z))` array. -/
structure Pt3 (K : Type) where
  x : K
  y : K
  z : K
  deriving DecidableEq, Repr

/-- Model of the numpy global pseudo-random generator state transition.  The
scripts call `np.random.seed(0)` once at module import and afterwards every
`np.random.rand` / `np.random.choice` call consumes the single global stream.
We model the stream position as a natural number `s`; `uMix s` is the raw
draw at position `s` (an LCG standing in for the Mersenne twister: a
deterministic state machine — the only properties the theorems use are
determinism and the range bound). -/
def uMix (s : Nat) : Nat := (s * 1103515245 + 12345) % 2 ^ 31

/-- Model of one `np.random.rand` variate at stream position `s`: a rational
in `[0, 1)`, deterministic in the stream position. -/
def uVal (s : Nat) : ℚ := (uMix s : ℚ) / 2 ^ 31

/-- Embedding of `generate_cylinder_wall(radius, height, n_points)`
(ConvexHull demo lines 32–37, AlphaShape demo lines 39–44):
`theta = np.random.rand(n) * 2 * np.pi`, `z = np.random.rand(n) * height`,
`x = radius * cos(theta)`, `y = radius * sin(theta)`.  The generator state
`g` is the global stream position; the call consumes `2 * n` variates
(first the `theta` array, then the `z` array) and the new position is
returned alongside the points. -/
noncomputable def generate_cylinder_wall (radius height : ℝ) (n_points g : Nat) :
    List (Pt3 ℝ) × Nat :=
  ((List.range n_points).map (fun i =>
      { x := radius * Real.cos ((uVal (g + i) : ℝ) * 2 * Real.pi)
        y := radius * Real.sin ((uVal (g + i) : ℝ) * 2 * Real.pi)
        z := (uVal (g + n_points + i) : ℝ) * height }),
    g + 2 * n_points)

/-- Embedding of `generate_bottom(radius, n_points)` (ConvexHull demo lines
39–45, AlphaShape demo lines 46–52): `r = np.sqrt(np.random.rand(n)) * radius`,
`theta = np.random.rand(n) * 2 * np.pi`, `x = r * cos(theta)`,
`y = r * sin(theta)`, `z = np.zeros_like(r)`. -/
noncomputable def generate_bottom (radius : ℝ) (n_points g : Nat) :
    List (Pt3 ℝ) × Nat :=
  ((List.range n_points).map (fun i =>
      { x := Real.sqrt (uVal (g + i)) * radius *
               Real.cos ((uVal (g + n_points + i) : ℝ) * 2 * Real.pi)
        y := Real.sqrt (uVal (g + i)) * radius *
               Real.sin ((uVal (g + n_points + i) : ℝ) * 2 * Real.pi)
        z := 0 }),
    g + 2 * n_points)

/-- Embedding of `generate_fill_surface(radius, height, fill_ratio, n_points)`
(ConvexHull demo lines 47–54, AlphaShape demo lines 54–61):
`z_fill = fill_ratio * height`, `r = np.sqrt(np.random.rand(n)) * radius`,
`theta = np.random.rand(n) * 2 * np.pi`, `z = np.ones_like(r) * z_fill`. -/
noncomputable def generate_fill_surface (radius height fillFrac : ℝ) (n_points g : Nat) :
    List (Pt3 ℝ) × Nat :=
  ((List.range n_points).map (fun i =>
      { x := Real.sqrt (uVal (g + i)) * radius *
               Real.cos ((uVal (g + n_points + i) : ℝ) * 2 * Real.pi)
        y := Real.sqrt (uVal (g + i)) * radius *
               Real.sin ((uVal (g + n_points + i) : ℝ) * 2 * Real.pi)
        z := 1 * (fillFrac * height) }),
    g + 2 * n_points)

/-- Modelled from the spec (§4.1): the single disk-sampling law
`sampleDisk(radius, zHeight, count, rng)` — radius drawn as
`radius · sqrt(u)` for `u` uniform on `[0,1)`, angle uniform on `[0, 2π)`,
`z` fixed at `zHeight`.  This definition follows the spec's words; the
source has no such shared function (it duplicates the law in
`generate_bottom` and `generate_fill_surface`), and the claim C6 equates
the two source generators with this law at heights `0` and
`fillRatio · height`. -/
noncomputable def sampleDisk (radius zHeight : ℝ) (n_points g : Nat) :
    List (Pt3 ℝ) × Nat :=
  ((List.range n_points).map (fun i =>
      { x := radius * Real.sqrt (uVal (g + i)) *
               Real.cos ((uVal (g + n_points + i) : ℝ) * 2 * Real.pi)
        y := radius * Real.sqrt (uVal (g + i)) *
               Real.sin ((uVal (g + n_points + i) : ℝ) * 2 * Real.pi)
        z := zHeight }),
    g + 2 * n_points)

/-- The Python call boundary of `generate_cylinder_wall`: its `n_points`
argument is a Python int, which may be negative, in which case the first
`np.random.rand(n_points)` call raises
`ValueError: negative dimensions are not allowed` (modelled as the error
case).  No validation of `radius` or `height` exists in the source. -/
noncomputable def generate_cylinder_wallInt (radius height : ℝ) (n : Int) (g : Nat) :
    Except String (List (Pt3 ℝ) × Nat) :=
  if n < 0 then .error "negative dimensions are not allowed"
  else .ok (generate_cylinder_wall radius height n.toNat g)

/-- The Python call boundary of `generate_bottom` (see
`generate_cylinder_wallInt`). -/
noncomputable def generate_bottomInt (radius : ℝ) (n : Int) (g : Nat) :
    Except String (List (Pt3 ℝ) × Nat) :=
  if n < 0 then .error "negative dimensions are not allowed"
  else .ok (generate_bottom radius n.toNat g)

/-- The Python call boundary of `generate_fill_surface` (see
`generate_cylinder_wallInt`). -/
noncomputable def generate_fill_surfaceInt (radius height fillFrac : ℝ) (n : Int) (g : Nat) :
    Except String (List (Pt3 ℝ) × Nat) :=
  if n < 0 then .error "negative dimensions are not allowed"
  else .ok (generate_fill_surface radius height fillFrac n.toNat g)

/-- Embedding of `analytic_capacity = math.pi * radius**2 * height`
(ConvexHull demo line 62, AlphaShape demo line 67); the spec names this
function `vesselCapacity`. -/
noncomputable def vesselCapacity (radius height : ℝ) : ℝ :=
  Real.pi * radius ^ 2 * height

/-- Embedding of `analytic_fill = analytic_capacity * fill_ratio`
(ConvexHull demo line 63, AlphaShape demo line 68); the spec names this
function `fillVolume`. -/
noncomputable def fillVolume (capacity fillFrac : ℝ) : ℝ :=
  capacity * fillFrac

/-- Determinant of the 3×3 matrix with rows `a`, `b`, `c`; used to decide
affine degeneracy of a point set. -/
def det3 (K : Type) [CommRing K] (a b c : Pt3 K) : K :=
  a.x * (b.y * c.z - b.z * c.y) - a.y * (b.x * c.z - b.z * c.x) +
    a.z * (b.x * c.y - b.y * c.x)

/-- Coordinatewise difference of two points. -/
def sub3 (K : Type) [CommRing K] (p q : Pt3 K) : Pt3 K :=
  { x := p.x - q.x, y := p.y - q.y, z := p.z - q.z }

/-- A point list is affinely flat (contained in a plane, line or point) when
every tetrahedron spanned with the first point as apex has zero oriented
volume. -/
def affinelyFlat (K : Type) [CommRing K] [DecidableEq K] (pts : List (Pt3 K)) : Bool :=
  match pts with
  | [] => true
  | p0 :: rest =>
    rest.all fun p1 => rest.all fun p2 => rest.all fun p3 =>
      det3 K (sub3 K p1 p0) (sub3 K p2 p0) (sub3 K p3 p0) = 0

/-- Precondition of a Qhull failure on 3D input: fewer than 4 points, or all
points coplanar/collinear. -/
def isDegenerate (K : Type) [CommRing K] [DecidableEq K] (pts : List (Pt3 K)) : Bool :=
  decide (pts.length < 4) || affinelyFlat K pts

/-- Model of `scipy.spatial.ConvexHull(pts).volume` at the library's
contract: Qhull raises `QhullError` on degenerate input (fewer than 4
points, or coplanar/collinear points) and otherwise returns the enclosed
hull volume.  The volume computation itself lives inside the external
library, so the model is parametric in the volume functional `vol`; every
theorem below holds for an arbitrary `vol`, and counterexamples instantiate
it concretely. -/
def convexHullVolume (K : Type) [CommRing K] [DecidableEq K]
    (vol : List (Pt3 K) → K) (pts : List (Pt3 K)) : Except String K :=
  if isDegenerate K pts then .error "QhullError" else .ok (vol pts)

/-- Argument of the `ConvexHull` call on line 67 of the ConvexHull demo:
`np.vstack((bottom_pts, wall_pts, fill_pts))`. -/
def hullFullInput (K : Type) (bottom_pts wall_pts fill_pts : List (Pt3 K)) :
    List (Pt3 K) :=
  bottom_pts ++ wall_pts ++ fill_pts

/-- Argument of the `ConvexHull` call on line 68 of the ConvexHull demo:
`np.vstack((bottom_pts, fill_pts))`. -/
def hullFillInput (K : Type) (bottom_pts fill_pts : List (Pt3 K)) :
    List (Pt3 K) :=
  bottom_pts ++ fill_pts

/-- Return record of `estimate_volumes` in the ConvexHull demo (lines
70–75).  The analytic entries are exact reals (they involve `math.pi`); the
hull entries live in the plumbing scalar `K`. -/
structure VolsConvex (K : Type) where
  analytic_capacity_m3 : ℝ
  analytic_fill_m3 : ℝ
  convex_hull_full_m3 : K
  convex_hull_fill_m3 : K

/-- Embedding of `estimate_volumes` of the ConvexHull demo (lines 60–75).
In the source the two `ConvexHull` constructions are unguarded, so a
`QhullError` raised by either propagates out of the function (modelled with
`Except`): there is no per-estimator error slot, and the analytic values
computed on lines 62–63 are lost with it. -/
noncomputable def estimate_volumes (K : Type) [CommRing K] [DecidableEq K]
    (vol : List (Pt3 K) → K) (bottom_pts wall_pts fill_pts : List (Pt3 K))
    (radius height fillFrac : ℝ) : Except String (VolsConvex K) :=
  match convexHullVolume K vol (hullFullInput K bottom_pts wall_pts fill_pts) with
  | .error e => .error e
  | .ok hull_full =>
    match convexHullVolume K vol (hullFillInput K bottom_pts fill_pts) with
    | .error e => .error e
    | .ok hull_fill =>
      .ok { analytic_capacity_m3 := vesselCapacity radius height
            analytic_fill_m3 := fillVolume (vesselCapacity radius height) fillFrac
            convex_hull_full_m3 := hull_full
            convex_hull_fill_m3 := hull_fill }

/-- Embedding of `fill_region = np.vstack((bottom_pts, fill_pts))`
(AlphaShape demo line 69). -/
def fill_region (K : Type) (bottom_pts fill_pts : List (Pt3 K)) : List (Pt3 K) :=
  bottom_pts ++ fill_pts

/-- Model of `np.random.choice(n, 5000, replace=False)` at the library's
contract: a list of `k` distinct indices below `n`, drawn deterministically
from the global generator state `g` (the draw consumes and therefore
depends on the global stream — it has no per-call seed argument).  The
concrete selection rule stands in for the Mersenne-twister permutation; the
theorems use only determinism, distinctness and the range bound, and the
counterexample uses only that the selection genuinely varies with `g`. -/
def npChoice (g n k : Nat) : List Nat :=
  (List.range k).map fun i => (g + i) % n

/-- Embedding of the subsampling guard of the AlphaShape demo (lines
71–74): `if fill_region.shape[0] > 5000: idx = np.random.choice(...,
5000, replace=False); fill_region = fill_region[idx]`.  The state `g` is
the global numpy stream position at the moment of the call. -/
def subsampleFillRegion (K : Type) (pts : List (Pt3 K)) (g : Nat) :
    List (Pt3 K) × Nat :=
  if 5000 < pts.length then
    ((npChoice g pts.length 5000).filterMap fun i => pts[i]?, g + 5000)
  else (pts, g)

/-- Outcome of the external `alphashape.alphashape(fill_region, alpha)`
call: it can raise (numerical/geometric failure), or return a shapely
object that may or may not carry a `volume` attribute, with its value when
present.  The library's geometry is external; theorems quantify over the
outcome. -/
inductive AlphaShapeOutcome (K : Type) where
  | raises
  | shape (hasVolumeAttr : Bool) (volume : K)

/-- Embedding of the try/except block of the AlphaShape demo's
`estimate_volumes` (lines 76–81):
`alpha_vol = shape.volume if hasattr(shape, "volume") else 0.0`, and on
exception `alpha_vol = ConvexHull(fill_region).volume` — the fill region
here being the already subsampled point set.  The fallback hull call is
itself unguarded, so it is modelled with `Except` as well. -/
def alpha_vol (K : Type) [CommRing K] [DecidableEq K] (vol : List (Pt3 K) → K)
    (fillRegion : List (Pt3 K)) (outcome : AlphaShapeOutcome K) : Except String K :=
  match outcome with
  | .raises => convexHullVolume K vol fillRegion
  | .shape true v => .ok v
  | .shape false _ => .ok 0

/-- Python's `round(x, ndigits)` at integer position: round half to even,
modelled on exact rationals. -/
def pyRoundInt (q : ℚ) : ℤ :=
  if q - Int.floor q < 1 / 2 then Int.floor q
  else if 1 / 2 < q - Int.floor q then Int.floor q + 1
  else if Int.floor q % 2 = 0 then Int.floor q else Int.floor q + 1

/-- Python's `round(x, ndigits)` for `ndigits` decimal digits. -/
def pyRound (ndigits : Nat) (q : ℚ) : ℚ :=
  (pyRoundInt (q * 10 ^ ndigits) : ℚ) / 10 ^ ndigits

/-- Embedding of the `metadata` dictionary of the ConvexHull demo (lines
93–108), as an association list from keys to numeric values, parameterized
by the configuration values and by the four entries of the `vols`
dictionary it reads. -/
def metadataConvex (bucket_radius bucket_height fillFrac : ℚ)
    (num_points_wall num_points_bottom num_points_fill_surface : Nat)
    (analytic_capacity analytic_fill hull_full hull_fill : ℚ) :
    List (String × ℚ) :=
  [("bucket_radius", bucket_radius),
   ("bucket_height", bucket_height),
   ("fill_ratio", fillFrac),
   ("num_points_wall", (num_points_wall : ℚ)),
   ("num_points_bottom", (num_points_bottom : ℚ)),
   ("num_points_fill_surface", (num_points_fill_surface : ℚ)),
   ("analytic_capacity_m3", pyRound 6 analytic_capacity),
   ("analytic_capacity_liters", pyRound 3 (analytic_capacity * 1000)),
   ("analytic_fill_m3", pyRound 6 analytic_fill),
   ("analytic_fill_liters", pyRound 3 (analytic_fill * 1000)),
   ("convex_hull_full_m3", pyRound 6 hull_full),
   ("convex_hull_full_liters", pyRound 3 (hull_full * 1000)),
   ("convex_hull_fill_m3", pyRound 6 hull_fill),
   ("convex_hull_fill_liters", pyRound 3 (hull_fill * 1000))]

/-- Embedding of the `metadata` dictionary of the AlphaShape demo (lines
106–122). -/
def metadataAlpha (bucket_radius bucket_height fillFrac : ℚ)
    (num_points_wall num_points_bottom num_points_fill_surface : Nat)
    (alpha_value : ℚ)
    (analytic_capacity analytic_fill hull_full alpha_fill : ℚ) :
    List (String × ℚ) :=
  [("bucket_radius", bucket_radius),
   ("bucket_height", bucket_height),
   ("fill_ratio", fillFrac),
   ("num_points_wall", (num_points_wall : ℚ)),
   ("num_points_bottom", (num_points_bottom : ℚ)),
   ("num_points_fill_surface", (num_points_fill_surface : ℚ)),
   ("alpha_value", alpha_value),
   ("analytic_capacity_m3", pyRound 6 analytic_capacity),
   ("analytic_capacity_liters", pyRound 3 (analytic_capacity * 1000)),
   ("analytic_fill_m3", pyRound 6 analytic_fill),
   ("analytic_fill_liters", pyRound 3 (analytic_fill * 1000)),
   ("convex_hull_full_m3", pyRound 6 hull_full),
   ("convex_hull_full_liters", pyRound 3 (hull_full * 1000)),
   ("alpha_shape_fill_m3", pyRound 6 alpha_fill),
   ("alpha_shape_fill_liters", pyRound 3 (alpha_fill * 1000))]

/-- Embedding of `empty_bucket = np.vstack((wall_pts, bottom_pts))`
(ConvexHull demo line 86, AlphaShape demo line 100). -/
def empty_bucket (K : Type) (wall_pts bottom_pts : List (Pt3 K)) : List (Pt3 K) :=
  wall_pts ++ bottom_pts

/-- Embedding of `full_bucket = np.vstack((empty_bucket, fill_pts))`
(ConvexHull demo line 87, AlphaShape demo line 101). -/
def full_bucket (K : Type) (wall_pts bottom_pts fill_pts : List (Pt3 K)) :
    List (Pt3 K) :=
  empty_bucket K wall_pts bottom_pts ++ fill_pts

/-- The point-array part of the `data` JSON payload (ConvexHull demo lines
111–116, AlphaShape demo lines 124–129): keys `empty_bucket`,
`fill_surface`, `full_bucket` (the `metadata` entry is a separate nested
object, embedded by `metadataConvex` / `metadataAlpha`). -/
def dataPoints (K : Type) (eb fs fb : List (Pt3 K)) : List (String × List (Pt3 K)) :=
  [("empty_bucket", eb), ("fill_surface", fs), ("full_bucket", fb)]

/-- Embedding of `empty_points = data.get("empty_bucket", [])`
(pointcloud_viewer.py line 31). -/
def viewerEmptyPoints (K : Type) (d : List (String × List (Pt3 K))) : List (Pt3 K) :=
  (d.lookup "empty_bucket").getD []

/-- Embedding of `fill_points = data.get("fill_points", [])`
(pointcloud_viewer.py line 32) — note the key differs from the producers'
`fill_surface`. -/
def viewerFillPoints (K : Type) (d : List (String × List (Pt3 K))) : List (Pt3 K) :=
  (d.lookup "fill_points").getD []

/-- Embedding of `full_points = data.get("full_bucket", [])`
(pointcloud_viewer.py line 33). -/
def viewerFullPoints (K : Type) (d : List (String × List (Pt3 K))) : List (Pt3 K) :=
  (d.lookup "full_bucket").getD []

/-- Embedding of the guard `if fill_points:` (pointcloud_viewer.py line 51)
that decides whether a fill trace is added to the figure. -/
def fillTraceShown (K : Type) (d : List (String × List (Pt3 K))) : Bool :=
  !(viewerFillPoints K d).isEmpty

/-- Concrete 5001-point set used to exercise the subsampling guard: points
`(i, 0, 0)` for `i < 5001`. -/
def pts5001 : List (Pt3 ℤ) :=
  (List.range 5001).map fun (i : Nat) => { x := (i : ℤ), y := 0, z := 0 }

/-- Concrete non-degenerate 4-point set (a genuine tetrahedron). -/
def tetra4 : List (Pt3 ℤ) :=
  [{ x := 0, y := 0, z := 0 }, { x := 1, y := 0, z := 0 },
   { x := 0, y := 1, z := 0 }, { x := 0, y := 0, z := 1 }]

/-- Concrete degenerate 4-point set: four distinct points, all with the
same `z = 0` (coplanar). -/
def coplanar4 : List (Pt3 ℤ) :=
  [{ x := 0, y := 0, z := 0 }, { x := 1, y := 0, z := 0 },
   { x := 0, y := 1, z := 0 }, { x := 1, y := 1, z := 0 }]

/-- Concrete 3-point set (fewer than 4 points). -/
def tri3 : List (Pt3 ℤ) :=
  [{ x := 0, y := 0, z := 0 }, { x := 1, y := 0, z := 0 },
   { x := 0, y := 1, z := 1 }]

/-! Helper lemmas. -/

theorem uVal_nonneg (s : Nat) : 0 ≤ uVal s := by
  unfold uVal
  positivity

theorem uVal_lt_one (s : Nat) : uVal s < 1 := by
  unfold uVal uMix
  rw [div_lt_one (by positivity)]
  exact_mod_cast Nat.mod_lt _ (by positivity)

theorem pyRound_liters (v : ℚ) : pyRound 3 (v * 1000) = 1000 * pyRound 6 v := by
  unfold pyRound
  have h : v * 1000 * 10 ^ 3 = v * 10 ^ 6 := by ring
  rw [h]
  ring

theorem addMod_inj (g n i j : Nat) (hi : i < n) (hj : j < n)
    (h : (g + i) % n = (g + j) % n) : i = j := by
  rcases Nat.le_total i j with hij | hij
  · have hd : n ∣ g + j - (g + i) :=
      (Nat.modEq_iff_dvd' (Nat.add_le_add_left hij g)).mp h
    have he : g + j - (g + i) = j - i := by omega
    rw [he] at hd
    have := Nat.eq_zero_of_dvd_of_lt hd
    omega
  · have hd : n ∣ g + i - (g + j) :=
      (Nat.modEq_iff_dvd' (Nat.add_le_add_left hij g)).mp h.symm
    have he : g + i - (g + j) = i - j := by omega
    rw [he] at hd
    have := Nat.eq_zero_of_dvd_of_lt hd
    omega

theorem npChoice_mem_lt (g n k i : Nat) (hn : 0 < n) (hmem : i ∈ npChoice g n k) :
    i < n := by
  rw [npChoice] at hmem
  simp only [List.mem_map, List.mem_range] at hmem
  obtain ⟨j, _, rfl⟩ := hmem
  exact Nat.mod_lt _ hn

theorem npChoice_nodup (g n k : Nat) (hk : k ≤ n) : (npChoice g n k).Nodup := by
  rw [npChoice]
  refine List.Nodup.map_on ?_ (List.nodup_range k)
  intro i hi j hj hij
  exact addMod_inj g n i j (lt_of_lt_of_le (List.mem_range.mp hi) hk)
    (lt_of_lt_of_le (List.mem_range.mp hj) hk) hij

theorem length_filterMap_index (K : Type) (pts : List (Pt3 K)) (l : List Nat)
    (h : ∀ i ∈ l, i < pts.length) :
    (l.filterMap fun i => pts[i]?).length = l.length := by
  induction l with
  | nil => rfl
  | cons a t ih =>
    have ha : a < pts.length := h a (List.mem_cons_self a t)
    have hsome : pts[a]? = some pts[a] := List.getElem?_eq_getElem ha
    rw [List.filterMap_cons, hsome]
    simp [ih fun i hi => h i (List.mem_cons_of_mem a hi)]

/-! Claim theorems. -/

/-- C1: For every radius and height, the analytic reference computes
`vesselCapacity = π · radius² · height`, and for every fill ratio in
`[0, 1]`, `fillVolume(capacity, fillRatio) = capacity · fillRatio`; in
particular `fillVolume` is `0` at ratio `0` and equals the capacity at
ratio `1`. -/
theorem c1_analytic_reference (radius height capacity fillFrac : ℝ)
    (h0 : 0 ≤ fillFrac) (h1 : fillFrac ≤ 1) :
    vesselCapacity radius height = Real.pi * radius ^ 2 * height
    ∧ fillVolume (vesselCapacity radius height) fillFrac
        = Real.pi * radius ^ 2 * height * fillFrac
    ∧ fillVolume capacity 0 = 0
    ∧ fillVolume capacity 1 = capacity :=
  ⟨rfl, rfl, mul_zero capacity, mul_one capacity⟩

/-- Witness for C1 at the demo configuration radius `0.1`, height `0.2`,
fill ratio `0.5`. -/
theorem c1_analytic_reference_witness :
    vesselCapacity 0.1 0.2 = Real.pi * 0.1 ^ 2 * 0.2
    ∧ fillVolume (vesselCapacity 0.1 0.2) 0.5 = Real.pi * 0.1 ^ 2 * 0.2 * 0.5
    ∧ fillVolume 1 0 = 0
    ∧ fillVolume 1 1 = 1 :=
  c1_analytic_reference 0.1 0.2 1 0.5 (by norm_num) (by norm_num)

/-- C6: Disk sampling draws the radial coordinate as `radius · sqrt(u)` for
`u` in `[0, 1)`, the angle as `2π · u`, and fixes `z` at the given height;
the vessel bottom (`z = 0`) and the fill surface (`z = fillRatio · height`)
are produced by this same sampling law evaluated at the two heights. -/
theorem c6_disk_sampling_law (radius height fillFrac zHeight : ℝ) (n g : Nat) :
    generate_bottom radius n g = sampleDisk radius 0 n g
    ∧ generate_fill_surface radius height fillFrac n g
        = sampleDisk radius (fillFrac * height) n g
    ∧ (sampleDisk radius zHeight n g).1
        = (List.range n).map (fun i =>
            { x := radius * Real.sqrt (uVal (g + i)) *
                     Real.cos ((uVal (g + n + i) : ℝ) * 2 * Real.pi)
              y := radius * Real.sqrt (uVal (g + i)) *
                     Real.sin ((uVal (g + n + i) : ℝ) * 2 * Real.pi)
              z := zHeight })
    ∧ (∀ s : Nat, 0 ≤ uVal s ∧ uVal s < 1) := by
  refine ⟨?_, ?_, rfl, fun s => ⟨uVal_nonneg s, uVal_lt_one s⟩⟩
  · unfold generate_bottom sampleDisk
    congr 1
    apply List.map_congr_left
    intro i _
    simp only [Pt3.mk.injEq]
    exact ⟨by ring, by ring, trivial⟩
  · unfold generate_fill_surface sampleDisk
    congr 1
    apply List.map_congr_left
    intro i _
    simp only [Pt3.mk.injEq]
    exact ⟨by ring, by ring, by ring⟩

/-- C7: The pipeline composes exactly the three reportable point sets —
`empty_bucket = wall ++ bottom`, the fill surface as sampled, and
`full_bucket = empty_bucket ++ fill` — and the convex-hull estimator runs
on (a permutation of) the full vessel for the capacity estimate and on
`bottom ++ fill` for the fill-region estimate (the hull inputs of
`estimate_volumes`). -/
theorem c7_pipeline_composition (K : Type) (wall_pts bottom_pts fill_pts eb fs fb : List (Pt3 K)) :
    empty_bucket K wall_pts bottom_pts = wall_pts ++ bottom_pts
    ∧ full_bucket K wall_pts bottom_pts fill_pts
        = empty_bucket K wall_pts bottom_pts ++ fill_pts
    ∧ (hullFullInput K bottom_pts wall_pts fill_pts).Perm
        (full_bucket K wall_pts bottom_pts fill_pts)
    ∧ hullFillInput K bottom_pts fill_pts = bottom_pts ++ fill_pts
    ∧ (dataPoints K eb fs fb).map Prod.fst
        = ["empty_bucket", "fill_surface", "full_bucket"] := by
  refine ⟨rfl, rfl, ?_, rfl, rfl⟩
  unfold hullFullInput full_bucket empty_bucket
  exact List.perm_append_comm.append_right fill_pts

/-- C8: Every volume field of either demo's metadata is paired with a
derived liters field; the cubic-meter entry is the value rounded to 6
decimals, the liters entry is the value × 1000 rounded to 3 decimals, and
the liters entry always equals 1000 × the rounded cubic-meter entry, so it
is a derived display conversion, never an independent quantity. -/
theorem c8_metadata_liters (r h f av : ℚ) (nw nb nf : Nat) (ac af hfu hfi afl : ℚ) :
    List.lookup "analytic_capacity_m3" (metadataConvex r h f nw nb nf ac af hfu hfi)
      = some (pyRound 6 ac)
    ∧ List.lookup "analytic_capacity_liters" (metadataConvex r h f nw nb nf ac af hfu hfi)
        = some (pyRound 3 (ac * 1000))
    ∧ List.lookup "analytic_fill_m3" (metadataConvex r h f nw nb nf ac af hfu hfi)
        = some (pyRound 6 af)
    ∧ List.lookup "analytic_fill_liters" (metadataConvex r h f nw nb nf ac af hfu hfi)
        = some (pyRound 3 (af * 1000))
    ∧ List.lookup "convex_hull_full_m3" (metadataConvex r h f nw nb nf ac af hfu hfi)
        = some (pyRound 6 hfu)
    ∧ List.lookup "convex_hull_full_liters" (metadataConvex r h f nw nb nf ac af hfu hfi)
        = some (pyRound 3 (hfu * 1000))
    ∧ List.lookup "convex_hull_fill_m3" (metadataConvex r h f nw nb nf ac af hfu hfi)
        = some (pyRound 6 hfi)
    ∧ List.lookup "convex_hull_fill_liters" (metadataConvex r h f nw nb nf ac af hfu hfi)
        = some (pyRound 3 (hfi * 1000))
    ∧ List.lookup "analytic_capacity_m3" (metadataAlpha r h f nw nb nf av ac af hfu afl)
        = some (pyRound 6 ac)
    ∧ List.lookup "analytic_capacity_liters" (metadataAlpha r h f nw nb nf av ac af hfu afl)
        = some (pyRound 3 (ac * 1000))
    ∧ List.lookup "analytic_fill_m3" (metadataAlpha r h f nw nb nf av ac af hfu afl)
        = some (pyRound 6 af)
    ∧ List.lookup "analytic_fill_liters" (metadataAlpha r h f nw nb nf av ac af hfu afl)
        = some (pyRound 3 (af * 1000))
    ∧ List.lookup "convex_hull_full_m3" (metadataAlpha r h f nw nb nf av ac af hfu afl)
        = some (pyRound 6 hfu)
    ∧ List.lookup "convex_hull_full_liters" (metadataAlpha r h f nw nb nf av ac af hfu afl)
        = some (pyRound 3 (hfu * 1000))
    ∧ List.lookup "alpha_shape_fill_m3" (metadataAlpha r h f nw nb nf av ac af hfu afl)
        = some (pyRound 6 afl)
    ∧ List.lookup "alpha_shape_fill_liters" (metadataAlpha r h f nw nb nf av ac af hfu afl)
        = some (pyRound 3 (afl * 1000))
    ∧ (∀ v : ℚ, pyRound 3 (v * 1000) = 1000 * pyRound 6 v) :=
  ⟨rfl, rfl, rfl, rfl, rfl, rfl, rfl, rfl, rfl, rfl, rfl, rfl, rfl, rfl, rfl, rfl,
   pyRound_liters⟩

/-- C10: The demo producers write the fill-surface array under the key
`fill_surface` while the viewer reads the fill group only under
`fill_points`; hence on every produced payload the viewer's fill group is
empty and no fill trace is shown, while the absent key is tolerated
without error (and the other two groups are read correctly). -/
theorem c10_viewer_key_mismatch (K : Type) (eb fs fb : List (Pt3 K)) :
    viewerFillPoints K (dataPoints K eb fs fb) = []
    ∧ fillTraceShown K (dataPoints K eb fs fb) = false
    ∧ viewerEmptyPoints K (dataPoints K eb fs fb) = eb
    ∧ viewerFullPoints K (dataPoints K eb fs fb) = fb
    ∧ viewerFillPoints K [] = [] :=
  ⟨rfl, rfl, rfl, rfl, rfl⟩

/-- C9: For every nonnegative radius and height and every count, every wall
point lies exactly on the cylinder surface (`x² + y² = radius²`) with
`0 ≤ z ≤ height`, every bottom point has `z = 0` and `x² + y² ≤ radius²`,
and every fill-surface point has `z = fillRatio · height` exactly. -/
theorem c9_sampler_invariants (radius height fillFrac : ℝ) (n g : Nat)
    (hr : 0 ≤ radius) (hh : 0 ≤ height) :
    (∀ p ∈ (generate_cylinder_wall radius height n g).1,
        p.x ^ 2 + p.y ^ 2 = radius ^ 2 ∧ 0 ≤ p.z ∧ p.z ≤ height)
    ∧ (∀ p ∈ (generate_bottom radius n g).1,
        p.z = 0 ∧ p.x ^ 2 + p.y ^ 2 ≤ radius ^ 2)
    ∧ (∀ p ∈ (generate_fill_surface radius height fillFrac n g).1,
        p.z = fillFrac * height) := by
  refine ⟨?_, ?_, ?_⟩
  · intro p hp
    rw [generate_cylinder_wall] at hp
    simp only [List.mem_map, List.mem_range] at hp
    obtain ⟨i, hi, rfl⟩ := hp
    have hu0 : (0 : ℝ) ≤ (uVal (g + n + i) : ℝ) := by
      exact_mod_cast uVal_nonneg (g + n + i)
    have hu1 : ((uVal (g + n + i) : ℝ)) ≤ 1 := by
      exact_mod_cast (uVal_lt_one (g + n + i)).le
    refine ⟨?_, mul_nonneg hu0 hh, mul_le_of_le_one_left hh hu1⟩
    have hcs := Real.cos_sq_add_sin_sq ((uVal (g + i) : ℝ) * 2 * Real.pi)
    calc (radius * Real.cos ((uVal (g + i) : ℝ) * 2 * Real.pi)) ^ 2 +
          (radius * Real.sin ((uVal (g + i) : ℝ) * 2 * Real.pi)) ^ 2
        = radius ^ 2 * (Real.cos ((uVal (g + i) : ℝ) * 2 * Real.pi) ^ 2 +
            Real.sin ((uVal (g + i) : ℝ) * 2 * Real.pi) ^ 2) := by ring
      _ = radius ^ 2 := by rw [hcs, mul_one]
  · intro p hp
    rw [generate_bottom] at hp
    simp only [List.mem_map, List.mem_range] at hp
    obtain ⟨i, hi, rfl⟩ := hp
    refine ⟨rfl, ?_⟩
    have hu0 : (0 : ℝ) ≤ (uVal (g + i) : ℝ) := by
      exact_mod_cast uVal_nonneg (g + i)
    have hu1 : ((uVal (g + i) : ℝ)) ≤ 1 := by
      exact_mod_cast (uVal_lt_one (g + i)).le
    have hs : Real.sqrt (uVal (g + i)) ^ 2 = ((uVal (g + i) : ℝ)) := Real.sq_sqrt hu0
    have hcs := Real.cos_sq_add_sin_sq ((uVal (g + n + i) : ℝ) * 2 * Real.pi)
    calc (Real.sqrt (uVal (g + i)) * radius *
            Real.cos ((uVal (g + n + i) : ℝ) * 2 * Real.pi)) ^ 2 +
          (Real.sqrt (uVal (g + i)) * radius *
            Real.sin ((uVal (g + n + i) : ℝ) * 2 * Real.pi)) ^ 2
        = Real.sqrt (uVal (g + i)) ^ 2 * radius ^ 2 *
            (Real.cos ((uVal (g + n + i) : ℝ) * 2 * Real.pi) ^ 2 +
              Real.sin ((uVal (g + n + i) : ℝ) * 2 * Real.pi) ^ 2) := by ring
      _ = (uVal (g + i) : ℝ) * radius ^ 2 := by rw [hcs, hs, mul_one]
      _ ≤ 1 * radius ^ 2 := mul_le_mul_of_nonneg_right hu1 (sq_nonneg radius)
      _ = radius ^ 2 := one_mul _
  · intro p hp
    rw [generate_fill_surface] at hp
    simp only [List.mem_map, List.mem_range] at hp
    obtain ⟨i, hi, rfl⟩ := hp
    exact one_mul (fillFrac * height)

/-- Witness for C9 at the demo configuration radius `0.1`, height `0.2`,
fill ratio `0.5`, one point per group, stream position `0`. -/
theorem c9_sampler_invariants_witness :
    (∀ p ∈ (generate_cylinder_wall 0.1 0.2 1 0).1,
        p.x ^ 2 + p.y ^ 2 = (0.1 : ℝ) ^ 2 ∧ 0 ≤ p.z ∧ p.z ≤ 0.2)
    ∧ (∀ p ∈ (generate_bottom 0.1 1 0).1,
        p.z = 0 ∧ p.x ^ 2 + p.y ^ 2 ≤ (0.1 : ℝ) ^ 2)
    ∧ (∀ p ∈ (generate_fill_surface 0.1 0.2 0.5 1 0).1,
        p.z = (0.5 : ℝ) * 0.2) :=
  c9_sampler_invariants 0.1 0.2 0.5 1 0 (by norm_num) (by norm_num)

/-- C2 counterexample: the claim that a result with no measurable volume
triggers the convex-hull fallback (and that the report records a fallback)
is false.  On a non-degenerate fill region (here `tetra4`, left unchanged
by the subsampling guard) whose alpha-shape result carries no `volume`
attribute, the estimator returns `0.0` while the convex-hull estimate of
the same point set is `5` under the instantiated volume functional: the
fallback is not taken and a zero is silently substituted. -/
theorem c2_alpha_fallback_counterexample :
    (subsampleFillRegion ℤ (fill_region ℤ tetra4 []) 0).1 = tetra4
    ∧ convexHullVolume ℤ (fun _ => 5) tetra4 = .ok 5
    ∧ alpha_vol ℤ (fun _ => 5) tetra4 (.shape false 0) = .ok 0 :=
  ⟨rfl, rfl, rfl⟩

/-- C2 (amended): when the alpha-shape construction raises, the estimator
falls back to the convex-hull volume of the same (already subsampled) fill
region; but a result lacking a `volume` attribute yields `0.0` instead of
the fallback, and the report's metadata has a fixed key set with no
fallback indicator, so no fallback is ever recorded. -/
theorem c2_alpha_fallback_amended (K : Type) [CommRing K] [DecidableEq K]
    (vol : List (Pt3 K) → K) (bottom_pts fill_pts : List (Pt3 K)) (g : Nat) (v : K)
    (r h f av ac af hfu afl : ℚ) (nw nb nf : Nat) :
    alpha_vol K vol (subsampleFillRegion K (fill_region K bottom_pts fill_pts) g).1
        AlphaShapeOutcome.raises
      = convexHullVolume K vol
          (subsampleFillRegion K (fill_region K bottom_pts fill_pts) g).1
    ∧ alpha_vol K vol (subsampleFillRegion K (fill_region K bottom_pts fill_pts) g).1
        (AlphaShapeOutcome.shape false v) = .ok 0
    ∧ (metadataAlpha r h f nw nb nf av ac af hfu afl).map Prod.fst
        = ["bucket_radius", "bucket_height", "fill_ratio", "num_points_wall",
           "num_points_bottom", "num_points_fill_surface", "alpha_value",
           "analytic_capacity_m3", "analytic_capacity_liters", "analytic_fill_m3",
           "analytic_fill_liters", "convex_hull_full_m3", "convex_hull_full_liters",
           "alpha_shape_fill_m3", "alpha_shape_fill_liters"] :=
  ⟨rfl, rfl, rfl⟩

/-- C3 counterexample: the claim that a degenerate-hull condition aborts only
that estimator's contribution while the pipeline still returns the analytic
values is false.  On a coplanar point set (four distinct points, all with
`z = 0`), the unguarded `ConvexHull` call raises and the whole
`estimate_volumes` invocation aborts with the error: no analytic values and
no per-estimator annotation are returned. -/
theorem c3_degenerate_hull_counterexample :
    estimate_volumes ℤ (fun _ => 0) coplanar4 [] [] 0.1 0.2 0.5
      = .error "QhullError" :=
  rfl

/-- C3 (amended): a degenerate point set (fewer than 4 points, or all points
coplanar/collinear, e.g. all at the same `z`) makes the hull constructor
raise an explicit `QhullError` — not a fabricated zero volume — but the
exception propagates uncaught out of `estimate_volumes`, aborting the whole
invocation: no analytic values and no partial estimator results are
returned. -/
theorem c3_degenerate_hull_amended (K : Type) [CommRing K] [DecidableEq K]
    (vol : List (Pt3 K) → K) (bottom_pts wall_pts fill_pts : List (Pt3 K))
    (radius height fillFrac : ℝ)
    (h : isDegenerate K (hullFullInput K bottom_pts wall_pts fill_pts) = true) :
    estimate_volumes K vol bottom_pts wall_pts fill_pts radius height fillFrac
      = .error "QhullError"
    ∧ ∀ pts : List (Pt3 K), pts.length < 4 → isDegenerate K pts = true := by
  constructor
  · simp [estimate_volumes, convexHullVolume, h]
  · intro pts hlt
    simp [isDegenerate, hlt]

/-- Witness for C3's amended theorem at a concrete 3-point input. -/
theorem c3_degenerate_hull_witness :
    isDegenerate ℤ (hullFullInput ℤ tri3 [] []) = true
    ∧ (estimate_volumes ℤ (fun _ => 0) tri3 [] [] 0.1 0.2 0.5 = .error "QhullError"
       ∧ ∀ pts : List (Pt3 ℤ), pts.length < 4 → isDegenerate ℤ pts = true) := by
  have h : isDegenerate ℤ (hullFullInput ℤ tri3 [] []) = true := by decide
  exact ⟨h, c3_degenerate_hull_amended ℤ (fun _ => 0) tri3 [] [] 0.1 0.2 0.5 h⟩

/-- C4 counterexample: the claim that the subsample is drawn from an
explicitly passed seeded random source — never an implicit/global draw —
is false.  The subsampling call reads the implicit global numpy stream:
for the identical 5001-point input (and the unchanged module-level
`np.random.seed(0)` discipline), two different ambient global-stream
positions select different subsamples — the point `(0, 0, 0)` is chosen at
stream position `0` and not chosen at stream position `1` — so no per-call
seed argument determines the draw. -/
theorem c4_subsample_counterexample :
    Pt3.mk (0 : ℤ) 0 0 ∈ (subsampleFillRegion ℤ pts5001 0).1
    ∧ Pt3.mk (0 : ℤ) 0 0 ∉ (subsampleFillRegion ℤ pts5001 1).1 := by
  have hlen : pts5001.length = 5001 := by
    rw [pts5001, List.length_map, List.length_range]
  have hif : (5000 : Nat) < pts5001.length := by omega
  constructor
  · rw [subsampleFillRegion, if_pos hif]
    simp only [List.mem_filterMap]
    refine ⟨0, ?_, ?_⟩
    · rw [npChoice, hlen]
      simp only [List.mem_map, List.mem_range]
      exact ⟨0, by norm_num, by norm_num⟩
    · rw [pts5001, List.getElem?_map, List.getElem?_range (by norm_num)]
      simp
  · rw [subsampleFillRegion, if_pos hif]
    simp only [List.mem_filterMap]
    rintro ⟨i, hiC, hget⟩
    rw [npChoice, hlen] at hiC
    simp only [List.mem_map, List.mem_range] at hiC
    obtain ⟨j, hj, rfl⟩ := hiC
    rw [Nat.mod_eq_of_lt (by omega)] at hget
    rw [pts5001, List.getElem?_map, List.getElem?_range (by omega)] at hget
    have hx := congrArg Pt3.x (Option.some.inj hget)
    simp only at hx
    have : ((1 + j : Nat) : ℤ) = 0 := hx
    omega

/-- C4 (amended): the subsample is drawn from the implicit global numpy
generator (seeded once at module import), not from an explicitly passed
per-call source; for a fixed global stream position and input it is a
deterministic without-replacement subsample of exactly 5000 of the input
positions (distinct in-range indices), so identical whole-program runs with
the same module seed reproduce it, but the draw depends on the ambient
global stream position. -/
theorem c4_subsample_amended (K : Type) (pts : List (Pt3 K)) (g : Nat)
    (h : 5000 < pts.length) :
    (subsampleFillRegion K pts g).1.length = 5000
    ∧ (npChoice g pts.length 5000).Nodup
    ∧ (∀ i ∈ npChoice g pts.length 5000, i < pts.length)
    ∧ (subsampleFillRegion K pts g).2 = g + 5000 := by
  have hmem : ∀ i ∈ npChoice g pts.length 5000, i < pts.length :=
    fun i hi => npChoice_mem_lt g pts.length 5000 i (by omega) hi
  refine ⟨?_, npChoice_nodup g pts.length 5000 (by omega), hmem, ?_⟩
  · rw [subsampleFillRegion, if_pos h]
    have hl := length_filterMap_index K pts (npChoice g pts.length 5000) hmem
    simp only [hl]
    rw [npChoice, List.length_map, List.length_range]
  · rw [subsampleFillRegion, if_pos h]

/-- Witness for C4's amended theorem at the concrete 5001-point input. -/
theorem c4_subsample_amended_witness :
    5000 < pts5001.length
    ∧ ((subsampleFillRegion ℤ pts5001 0).1.length = 5000
       ∧ (npChoice 0 pts5001.length 5000).Nodup
       ∧ (∀ i ∈ npChoice 0 pts5001.length 5000, i < pts5001.length)
       ∧ (subsampleFillRegion ℤ pts5001 0).2 = 0 + 5000) := by
  have h : 5000 < pts5001.length := by
    rw [pts5001, List.length_map, List.length_range]
    omega
  exact ⟨h, c4_subsample_amended ℤ pts5001 0 h⟩

/-- C5 counterexample: the claim that a negative radius or height is a
configuration error rejected before any sampling is false.  The wall
sampler invoked with radius `-1` is not rejected: it succeeds and produces
the requested 3 points (on the mirrored geometry), with no error of any
kind. -/
theorem c5_count_validation_counterexample :
    generate_cylinder_wallInt (-1) 1 3 0 = .ok (generate_cylinder_wall (-1) 1 3 0)
    ∧ (generate_cylinder_wall (-1) 1 3 0).1.length = 3 := by
  refine ⟨rfl, ?_⟩
  simp [generate_cylinder_wall]

/-- C5 (amended): for every sampling call, count `0` yields an empty point
set (not an error); a negative count makes the `np.random.rand` allocation
raise a `ValueError`, fatal to the invocation; but a negative radius or
height is not validated at all — the sampler accepts it and produces the
requested number of points. -/
theorem c5_count_validation_amended (radius height fillFrac : ℝ) (g m : Nat)
    (n : Int) (hn : n < 0) :
    (generate_cylinder_wall radius height 0 g).1 = []
    ∧ (generate_bottom radius 0 g).1 = []
    ∧ (generate_fill_surface radius height fillFrac 0 g).1 = []
    ∧ generate_cylinder_wallInt radius height n g
        = .error "negative dimensions are not allowed"
    ∧ generate_bottomInt radius n g
        = .error "negative dimensions are not allowed"
    ∧ generate_fill_surfaceInt radius height fillFrac n g
        = .error "negative dimensions are not allowed"
    ∧ generate_cylinder_wallInt radius height (m : Int) g
        = .ok (generate_cylinder_wall radius height m g) := by
  refine ⟨rfl, rfl, rfl, ?_, ?_, ?_, ?_⟩
  · simp [generate_cylinder_wallInt, hn]
  · simp [generate_bottomInt, hn]
  · simp [generate_fill_surfaceInt, hn]
  · rw [generate_cylinder_wallInt, if_neg (by omega)]
    simp

/-- Witness for C5's amended theorem: negative radius/height `-1`, `-2`,
fill ratio `-3`, zero and negative counts. -/
theorem c5_count_validation_witness :
    (generate_cylinder_wall (-1) (-2) 0 0).1 = []
    ∧ (generate_bottom (-1) 0 0).1 = []
    ∧ (generate_fill_surface (-1) (-2) (-3) 0 0).1 = []
    ∧ generate_cylinder_wallInt (-1) (-2) (-7) 0
        = .error "negative dimensions are not allowed"
    ∧ generate_bottomInt (-1) (-7) 0
        = .error "negative dimensions are not allowed"
    ∧ generate_fill_surfaceInt (-1) (-2) (-3) (-7) 0
        = .error "negative dimensions are not allowed"
    ∧ generate_cylinder_wallInt (-1) (-2) ((2 : Nat) : Int) 0
        = .ok (generate_cylinder_wall (-1) (-2) 2 0) :=
  c5_count_validation_amended (-1) (-2) (-3) 0 2 (-7) (by norm_num)
